import Mathlib

/-!
Verification of the Tight Market Crypto strategy core (polyagent repository).

Shallow embedding of the strategy's data model and operations, translated
from the Python sources:

- `src/strategies/tight_market_crypto/tightness_tracker.py` (MarketTracker)
- `src/strategies/tight_market_crypto/chainlink_feed.py` and
  `binance_feed.py` (get_volatility; both files hold the identical function)
- `src/strategies/tight_market_crypto/signal_engine.py` (SignalEngine)
- `src/strategies/tight_market_crypto/executor.py` (TightMarketCryptoExecutor)
- `src/strategies/tight_market_crypto/coordinator.py` (strike capture)
- `scripts/binary_option_backtest.py` (norm_cdf, calc_prob_above)

Python floats are modelled as rationals (ℚ); the transcendental library
functions `math.log`, `math.sqrt` and `math.exp` have no exact rational
counterpart, so every definition that calls one takes the function as an
explicit parameter (`lg`, `sq`, `ex`): the theorems hold for every choice,
in particular for any rational approximation of the real function.
Wall-clock timestamps are rationals, UTC dates are naturals.
-/

namespace Polyagent

/-- Market record, from `models.py` `CryptoMarket`.  `token_ids` is the
ordered pair (YES token, NO token); timestamps are seconds. -/
structure CryptoMarket where
  condition_id : String
  token_yes : String
  token_no : String
  end_date : ℚ
  asset : String
  start_date : Option ℚ := none
  strike_price : Option ℚ := none
deriving Repr, DecidableEq

/-- One odds observation, from `models.py` `OddsSnapshot`. -/
structure OddsSnapshot where
  timestamp : ℚ
  yes_price : ℚ
  no_price : ℚ
deriving Repr, DecidableEq

/-- Python's `abs` on rationals, written out so that it evaluates by
kernel reduction. -/
def absQ (x : ℚ) : ℚ := if x < 0 then -x else x

/-- `OddsSnapshot.spread`: distance of the YES ask from one half. -/
def OddsSnapshot.spread (s : OddsSnapshot) : ℚ := absQ (s.yes_price - 1/2)

/-- Read-only aggregate, from `models.py` `TightnessProfile`. -/
structure TightnessProfile where
  market : CryptoMarket
  snapshots : List OddsSnapshot
  tight_ratio : ℚ
  avg_spread : ℚ
  current_yes : ℚ
  current_no : ℚ
  seconds_remaining : ℚ
deriving Repr, DecidableEq

/-- `MarketTracker.get_profile` (tightness_tracker.py lines 36-68): the
snapshot list is the lock-protected copy taken inside the method; `now` is
the wall clock. -/
def get_profile (market : CryptoMarket) (threshold : ℚ)
    (snapshots : List OddsSnapshot) (now : ℚ) : TightnessProfile :=
  let seconds_remaining : ℚ := max 0 (market.end_date - now)
  match snapshots with
  | [] =>
      { market := market
        snapshots := []
        tight_ratio := 0
        avg_spread := 1
        current_yes := 1/2
        current_no := 1/2
        seconds_remaining := seconds_remaining }
  | s :: rest =>
      let snaps := s :: rest
      let tight_count := (snaps.filter (fun t => t.spread ≤ threshold)).length
      let latest := snaps.getLast (by simp [snaps])
      { market := market
        snapshots := snaps
        tight_ratio := (tight_count : ℚ) / (snaps.length : ℚ)
        avg_spread := (snaps.map OddsSnapshot.spread).sum / (snaps.length : ℚ)
        current_yes := latest.yes_price
        current_no := latest.no_price
        seconds_remaining := seconds_remaining }

/-! ## Price-feed volatility (chainlink_feed.py / binance_feed.py)

`get_volatility` is identical in both feed files.  The per-asset history is
a list of (timestamp, price) pairs; `hist = []` models a missing/empty
deque (`if not hist: return None`). -/

/-- Samples within the trailing window: `[(ts, px) for ts, px in hist if ts >= cutoff]`
with `cutoff = now - window_seconds`. -/
def volatilityPoints (now window : ℚ) (hist : List (ℚ × ℚ)) : List (ℚ × ℚ) :=
  hist.filter (fun p => now - window ≤ p.1)

/-- Consecutive log-returns: for each adjacent pair of samples with a
positive earlier price, `lg (curr / prev)` (`math.log` abstracted as `lg`). -/
def logReturns (lg : ℚ → ℚ) : List (ℚ × ℚ) → List ℚ
  | a :: b :: rest => (if 0 < a.2 then [lg (b.2 / a.2)] else []) ++ logReturns lg (b :: rest)
  | _ => []

/-- Mean of a list of rationals (`sum(returns) / len(returns)`). -/
def listMean (l : List ℚ) : ℚ := l.sum / (l.length : ℚ)

/-- Population variance (`sum((r - mean) ** 2 for r in returns) / len(returns)`). -/
def listVariance (l : List ℚ) : ℚ :=
  ((l.map (fun r => (r - listMean l) ^ 2)).sum) / (l.length : ℚ)

/-- `get_volatility` (chainlink_feed.py lines 107-137, binance_feed.py lines
68-98): stddev of consecutive log-returns among samples in the trailing
window; `none` when the history is empty, fewer than 10 samples lie in the
window, or fewer than 5 returns were computed.  `sq` abstracts `math.sqrt`. -/
def get_volatility (lg sq : ℚ → ℚ) (now window : ℚ)
    (hist : List (ℚ × ℚ)) : Option ℚ :=
  if hist = [] then none
  else
    let points := volatilityPoints now window hist
    if points.length < 10 then none
    else
      let returns := logReturns lg points
      if returns.length < 5 then none
      else some (sq (listVariance returns))

/-! ## SignalEngine (signal_engine.py)

`check_signals` iterates the tracked profiles once per coordinator tick.
For each profile it consumes a handful of live lookups (Chainlink price,
expected move, volatility, price momentum, CLOB best asks); those replies
are modelled as a per-market `SignalEnv` record of options (`none` = the
Python call returned `None`). -/

/-- The configuration fields `check_signals` reads (core/config.py `tmc_*`
plus the fields the engine dereferences). -/
structure SigConfig where
  entry_window : ℚ
  execution_window : ℚ
  min_seconds_remaining : ℚ
  volatility_multiplier : ℚ
  volatility_boost_factor : ℚ
  min_volatility : ℚ
  max_distance_ratio : ℚ
  block_confirming_momentum : Bool
  momentum_threshold : ℚ
  odds_bypass_max_ask : ℚ
  max_entry_ask : ℚ
  max_investment : ℚ
deriving Repr, DecidableEq

/-- Replies of the live lookups one evaluation of a market performs. -/
structure SignalEnv where
  price : Option ℚ
  raw_expected_move : Option ℚ
  volatility : Option ℚ
  momentum : Option ℚ
  yes_ask : Option ℚ
  no_ask : Option ℚ
deriving Repr, DecidableEq

/-- The fields of one `_skipped_signals` entry that the control flow
determines (`_record_skip`); the remaining fields of the source's dict are
rounded copies of the evaluation context and do not affect any behaviour. -/
structure SkipEntry where
  would_have_fired : Bool
  skip_reason : String
deriving Repr, DecidableEq

/-- The opportunity record as constructed at the fire site
(signal_engine.py lines 188-202). -/
structure TightMarketOpportunity where
  market : CryptoMarket
  profile : TightnessProfile
  yes_ask : ℚ
  no_ask : ℚ
  buy_side : String
  buy_token_id : String
  buy_ask : ℚ
  amount : ℚ
  total_cost : ℚ
  strike_price : ℚ
  current_crypto_price : ℚ
  distance : ℚ
  expected_move : ℚ
deriving Repr, DecidableEq

/-- What one evaluation of one market does: fire an opportunity, append a
skip entry (`_record_skip`), or fall through silently (`continue` without
recording anything). -/
inductive EvalOutcome where
  | fired (opp : TightMarketOpportunity)
  | skipped (entry : SkipEntry)
  | passedOver
deriving Repr, DecidableEq

/-- The key signal (signal_engine.py line 83):
`expected_move > 0 and distance / expected_move <= K`. -/
abbrev signal_passes (K distance expected_move : ℚ) : Prop :=
  0 < expected_move ∧ distance / expected_move ≤ K

/-- `SignalEngine._has_odds_bypass` (lines 219-255). -/
def has_odds_bypass (cfg : SigConfig) (profile : TightnessProfile)
    (current_price strike : ℚ) : Bool :=
  if profile.snapshots.length < 3 then false
  else
    let cheap_price := if strike < current_price then profile.current_no
                       else profile.current_yes
    if cfg.odds_bypass_max_ask < cheap_price then false
    else
      let snaps := profile.snapshots
      let n := min 5 (snaps.length / 2)
      if n < 2 then false
      else
        let early_avg := listMean ((snaps.take n).map OddsSnapshot.yes_price)
        let late_avg := listMean ((snaps.drop (snaps.length - n)).map OddsSnapshot.yes_price)
        let odds_shift := late_avg - early_avg
        if strike < current_price then decide (odds_shift < -(1/100))
        else decide (1/100 < odds_shift)

/-- `SignalEngine._is_confirming_momentum` (lines 271-285). -/
def is_confirming_momentum (threshold momentum current_price strike : ℚ) : Bool :=
  if strike < current_price then decide (threshold < momentum)
  else decide (momentum < -threshold)

/-- Gates 3-4 and the fire site of `check_signals` (signal_engine.py lines
156-213): live CLOB asks, cheap-side selection by spot vs strike, and the
maximum entry ask. -/
def evalAsksGate (cfg : SigConfig) (profile : TightnessProfile)
    (strike current_price distance expected_move : ℚ)
    (yes_ask no_ask : Option ℚ) : EvalOutcome :=
  match yes_ask, no_ask with
  | some ya, some na =>
    if ya ≤ 0 ∨ na ≤ 0 then
      .skipped { would_have_fired := false, skip_reason := "no_valid_asks" }
    else if strike < current_price then
      -- spot above strike: the cheap side is NO
      if 0 < cfg.max_entry_ask ∧ cfg.max_entry_ask < na then
        .skipped { would_have_fired := false, skip_reason := "cheap_side_too_expensive" }
      else
        .fired
          { market := profile.market
            profile := profile
            yes_ask := ya
            no_ask := na
            buy_side := "NO"
            buy_token_id := profile.market.token_no
            buy_ask := na
            amount := cfg.max_investment
            total_cost := cfg.max_investment
            strike_price := strike
            current_crypto_price := current_price
            distance := distance
            expected_move := expected_move }
    else
      -- spot at or below strike: the cheap side is YES
      if 0 < cfg.max_entry_ask ∧ cfg.max_entry_ask < ya then
        .skipped { would_have_fired := false, skip_reason := "cheap_side_too_expensive" }
      else
        .fired
          { market := profile.market
            profile := profile
            yes_ask := ya
            no_ask := na
            buy_side := "YES"
            buy_token_id := profile.market.token_yes
            buy_ask := ya
            amount := cfg.max_investment
            total_cost := cfg.max_investment
            strike_price := strike
            current_crypto_price := current_price
            distance := distance
            expected_move := expected_move }
  | _, _ => .skipped { would_have_fired := false, skip_reason := "no_valid_asks" }

/-- The key-signal gate, the pre-window wait, and execution-window gates
1-2 of `check_signals` (signal_engine.py lines 98-154).  The source's
`raw_ratio > max` with `raw_ratio = inf` when `raw_em <= 0` is written as
a disjunction (an infinite ratio exceeds any finite bound). -/
def evalSignalGates (cfg : SigConfig) (profile : TightnessProfile)
    (env : SignalEnv) (strike current_price distance raw_em expected_move : ℚ) :
    EvalOutcome :=
  if ¬ signal_passes cfg.volatility_multiplier distance expected_move then
    .skipped { would_have_fired := false, skip_reason := "" }
  else if ¬ (profile.seconds_remaining ≤ cfg.execution_window) then
    .skipped { would_have_fired := true, skip_reason := "" }
  else if ((0 < raw_em ∧ cfg.max_distance_ratio < distance / raw_em) ∨ raw_em ≤ 0) ∧
          ¬ has_odds_bypass cfg profile current_price strike then
    .skipped { would_have_fired := false, skip_reason := "distance_ratio_too_high" }
  else if cfg.block_confirming_momentum &&
          (match env.momentum with
           | some m => is_confirming_momentum cfg.momentum_threshold m current_price strike
           | none => false) then
    .skipped { would_have_fired := false, skip_reason := "confirming_momentum" }
  else
    evalAsksGate cfg profile strike current_price distance expected_move
      env.yes_ask env.no_ask

/-- One iteration of the `check_signals` loop for one profile
(signal_engine.py lines 34-213), given the fired set and the live lookups:
the silent early `continue`s (already fired, no strike, outside the entry
window, below the seconds floor, missing Chainlink data, low volatility
without a passing signal), then `evalSignalGates`. -/
def evalMarket (cfg : SigConfig) (fired : List String)
    (profile : TightnessProfile) (env : SignalEnv) : EvalOutcome :=
  if profile.market.condition_id ∈ fired then .passedOver
  else
    match profile.market.strike_price with
    | none => .passedOver
    | some strike =>
      if profile.seconds_remaining ≤ 0 ∨ cfg.entry_window < profile.seconds_remaining then
        .passedOver
      else if profile.seconds_remaining < cfg.min_seconds_remaining then .passedOver
      else
        match env.price, env.raw_expected_move with
        | some current_price, some raw_em =>
          let distance := absQ (current_price - strike)
          let expected_move := if profile.seconds_remaining ≤ cfg.execution_window then
              raw_em * cfg.volatility_boost_factor else raw_em
          (match env.volatility with
          | some v =>
              if v < cfg.min_volatility ∧
                 ¬ signal_passes cfg.volatility_multiplier distance expected_move then
                .passedOver
              else
                evalSignalGates cfg profile env strike current_price distance raw_em expected_move
          | none =>
              evalSignalGates cfg profile env strike current_price distance raw_em expected_move)
        | _, _ => .passedOver

/-- The engine's mutable per-lifetime state: the fired set and the
`_skipped_signals` log (flattened to (condition id, entry) pairs). -/
structure SigState where
  fired : List String
  skips : List (String × SkipEntry)
deriving Repr, DecidableEq

/-- Effect of one loop iteration on the engine state and the tick's
opportunity list (fire appends the opportunity and inserts the id into the
fired set; a skip appends to the skip log). -/
def checkSignalsStep (cfg : SigConfig)
    (acc : SigState × List TightMarketOpportunity)
    (input : TightnessProfile × SignalEnv) : SigState × List TightMarketOpportunity :=
  let cid := input.1.market.condition_id
  match evalMarket cfg acc.1.fired input.1 input.2 with
  | .fired opp => ({ acc.1 with fired := cid :: acc.1.fired }, acc.2 ++ [opp])
  | .skipped e => ({ acc.1 with skips := acc.1.skips ++ [(cid, e)] }, acc.2)
  | .passedOver => acc

/-- `SignalEngine.check_signals`: fold the per-market evaluation over the
tick's profiles (with each profile's live lookups), starting from the
engine state and an empty opportunity list. -/
def checkSignals (cfg : SigConfig) (st : SigState)
    (inputs : List (TightnessProfile × SignalEnv)) :
    SigState × List TightMarketOpportunity :=
  inputs.foldl (checkSignalsStep cfg) (st, [])

/-! ## Black-Scholes model (scripts/binary_option_backtest.py)

The spec's probability model lives in the backtest script, not in the
signal engine.  `ex` abstracts `math.exp`, `lg` abstracts `math.log`, `sq`
abstracts `math.sqrt`. -/

/-- `norm_cdf` (binary_option_backtest.py lines 25-43): Abramowitz-Stegun
rational approximation of the standard normal CDF, saturating to 0/1
outside |x| > 8. -/
def norm_cdf (ex : ℚ → ℚ) (x : ℚ) : ℚ :=
  if x < -8 then 0
  else if 8 < x then 1
  else
    let a1 : ℚ := 254829592/1000000000
    let a2 : ℚ := -284496736/1000000000
    let a3 : ℚ := 1421413741/1000000000
    let a4 : ℚ := -1453152027/1000000000
    let a5 : ℚ := 1061405429/1000000000
    let p : ℚ := 3275911/10000000
    let sign : ℚ := if 0 ≤ x then 1 else -1
    let x_abs := absQ x
    let t := 1 / (1 + p * x_abs)
    let y := 1 - (((((a5 * t + a4) * t) + a3) * t + a2) * t + a1) * t * ex (-(x_abs * x_abs) / 2)
    (1/2) * (1 + sign * y)

/-- `calc_prob_above` (binary_option_backtest.py lines 46-61):
P(price > strike at expiry), `d2 = ln(S/K) / (σ·√T)`, degenerate inputs
give 1/2. -/
def calc_prob_above (lg sq ex : ℚ → ℚ) (price strike vol T : ℚ) : ℚ :=
  if price ≤ 0 ∨ strike ≤ 0 ∨ vol ≤ 0 ∨ T ≤ 0 then 1/2
  else norm_cdf ex (lg (price / strike) / (vol * sq T))

/-! ## Concrete evaluation instances

Configurations and inputs used to evaluate the embedded code at concrete
points (counterexamples and witnesses).  `sigCfgEx` mirrors the config.py
defaults where config.py defines the field. -/

def sigCfgEx : SigConfig :=
  { entry_window := 90, execution_window := 5, min_seconds_remaining := 7
    volatility_multiplier := 2, volatility_boost_factor := 3
    min_volatility := 7/100000, max_distance_ratio := 10
    block_confirming_momentum := true, momentum_threshold := 1
    odds_bypass_max_ask := 15/100, max_entry_ask := 1/2, max_investment := 2 }

/-- A lookup environment in which every live query returned `None`. -/
def envNone : SignalEnv :=
  { price := none, raw_expected_move := none, volatility := none
    momentum := none, yes_ask := none, no_ask := none }

/-- A tracked market that has no strike price yet (strike capture has not
run): `check_signals` reaches `continue` without `_record_skip`. -/
def mEx3 : CryptoMarket :=
  { condition_id := "mkt3", token_yes := "y3", token_no := "n3"
    end_date := 1000, asset := "BTC" }

def pEx3 : TightnessProfile :=
  { market := mEx3, snapshots := [], tight_ratio := 0, avg_spread := 1
    current_yes := 1/2, current_no := 1/2, seconds_remaining := 50 }

/-- `sigCfgEx` with a 1-second floor so that a 4-second-remaining market is
inside both the entry and the execution window. -/
def sigCfgEx4 : SigConfig := { sigCfgEx with min_seconds_remaining := 1 }

def mEx4 : CryptoMarket :=
  { condition_id := "mkt4", token_yes := "y4", token_no := "n4"
    end_date := 1000, asset := "BTC", start_date := some 0
    strike_price := some 100 }

def pEx4 : TightnessProfile :=
  { market := mEx4, snapshots := [], tight_ratio := 0, avg_spread := 1
    current_yes := 1/2, current_no := 1/2, seconds_remaining := 4 }

/-- Spot 101 sits above the strike 100, both asks are 1/2, volatility
σ = 10⁻⁶, four seconds remain. -/
def envEx4 : SignalEnv :=
  { price := some 101, raw_expected_move := some 1
    volatility := some (1/1000000), momentum := none
    yes_ask := some (1/2), no_ask := some (1/2) }

/-- The opportunity `evalMarket` fires for `pEx4`/`envEx4`: the code buys
the cheap side NO because the spot is above the strike. -/
def oppEx4 : TightMarketOpportunity :=
  { market := mEx4, profile := pEx4, yes_ask := 1/2, no_ask := 1/2
    buy_side := "NO", buy_token_id := "n4", buy_ask := 1/2, amount := 2
    total_cost := 2, strike_price := 100, current_crypto_price := 101
    distance := 1, expected_move := 3 }

/-- Rational stand-in for `math.log` at the single point the C4 instance
uses: ln(101/100) ≈ 0.00995; the value 1/100 (indeed any value above
0.000016) lands d2 in norm_cdf's saturation region, so the exact value is
immaterial. -/
def lgEx4 : ℚ → ℚ := fun _ => 1/100

/-- Rational stand-in for `math.sqrt` at the single point used: √4 = 2
exactly. -/
def sqEx4 : ℚ → ℚ := fun _ => 2

/-- Stand-in for `math.exp`; never reached for the C4 instance (d2 > 8
saturates before the exponential is evaluated). -/
def exEx4 : ℚ → ℚ := fun _ => 1/2

/-! ## Executor (executor.py)

`TightMarketCryptoExecutor.execute` runs `_execute_inner` under the
instance lock.  The UTC date is a day number (ℕ); the venue's behaviour
during `_execute_live`'s try block is an input (`OrderPlacement`). -/

/-- The configuration fields the executor reads. -/
structure ExecConfig where
  dry_run : Bool
  tmc_max_daily_loss : ℚ
deriving Repr, DecidableEq

/-- The opportunity fields executor.py dereferences (`market.token_ids`,
`amount_per_side`, `total_cost`, and the ledger columns). -/
structure ExecOpportunity where
  condition_id : String
  token_yes : String
  token_no : String
  yes_ask : ℚ
  no_ask : ℚ
  amount_per_side : ℚ
  total_cost : ℚ
deriving Repr, DecidableEq

/-- Executor state: `_daily_loss`, `_daily_reset` (UTC date as a day
number) and `_killed`. -/
structure ExecState where
  daily_loss : ℚ
  daily_reset : ℕ
  killed : Bool
deriving Repr, DecidableEq

/-- A market order posted to the venue (side BUY and type FOK are fixed in
the source, so only the token and the USD amount are recorded). -/
structure Order where
  token_id : String
  amount : ℚ
deriving Repr, DecidableEq

/-- Outcome of the venue calls inside `_execute_live`'s try block: both
legs posted, an exception during the YES leg (before its order id was
recorded), or an exception during the NO leg after the YES id was
recorded. -/
inductive OrderPlacement where
  | ok (yes_id no_id : String)
  | failAtYes (msg : String)
  | failAfterYes (yes_id msg : String)
deriving Repr, DecidableEq

/-- The `TightMarketTradeResult` fields the claims read. -/
structure TradeResult where
  success : Bool
  order_ids : List String
  cost : ℚ
  error : Option String
deriving Repr, DecidableEq

/-- One `execute()` call's observable effect: the new executor state, the
returned result, the orders posted to the venue during the call, and how
many ledger appends (`_save_trade`) happened. -/
structure ExecEffect where
  state : ExecState
  result : TradeResult
  orders : List Order
  ledger_writes : ℕ
deriving Repr, DecidableEq

/-- `_maybe_reset_daily` (executor.py lines 193-199). -/
def maybe_reset_daily (st : ExecState) (today : ℕ) : ExecState :=
  if today ≠ st.daily_reset then
    { daily_loss := 0, daily_reset := today, killed := false }
  else st

/-- `_execute_live` (executor.py lines 73-138): posts a YES and then a NO
market order of `amount_per_side` USD each; on success adds `total_cost`
to the daily loss, on an exception anywhere in the try block adds
`total_cost * 0.5`; either way appends one ledger entry and returns. -/
def execute_live (opp : ExecOpportunity) (st : ExecState)
    (venue : OrderPlacement) : ExecEffect :=
  match venue with
  | .ok yes_id no_id =>
      { state := { st with daily_loss := st.daily_loss + opp.total_cost }
        result := { success := true, order_ids := [yes_id, no_id]
                    cost := opp.total_cost, error := none }
        orders := [{ token_id := opp.token_yes, amount := opp.amount_per_side },
                   { token_id := opp.token_no, amount := opp.amount_per_side }]
        ledger_writes := 1 }
  | .failAtYes msg =>
      { state := { st with daily_loss := st.daily_loss + opp.total_cost * (1/2) }
        result := { success := false, order_ids := [], cost := 0, error := some msg }
        orders := [{ token_id := opp.token_yes, amount := opp.amount_per_side }]
        ledger_writes := 1 }
  | .failAfterYes yes_id msg =>
      { state := { st with daily_loss := st.daily_loss + opp.total_cost * (1/2) }
        result := { success := false, order_ids := [yes_id], cost := 0, error := some msg }
        orders := [{ token_id := opp.token_yes, amount := opp.amount_per_side },
                   { token_id := opp.token_no, amount := opp.amount_per_side }]
        ledger_writes := 1 }

/-- `_execute_inner` (executor.py lines 32-71): the sticky-kill check runs
before `_maybe_reset_daily`; then the daily-loss ceiling, dry-run, and the
live path. -/
def execute_inner (cfg : ExecConfig) (st : ExecState) (today : ℕ)
    (opp : ExecOpportunity) (venue : OrderPlacement) : ExecEffect :=
  if st.killed then
    { state := st
      result := { success := false, order_ids := [], cost := 0
                  error := some "Kill switch activated - max daily loss reached" }
      orders := []
      ledger_writes := 0 }
  else
    let st1 := maybe_reset_daily st today
    if cfg.tmc_max_daily_loss ≤ st1.daily_loss then
      { state := { st1 with killed := true }
        result := { success := false, order_ids := [], cost := 0
                    error := some "Kill switch - max daily loss" }
        orders := []
        ledger_writes := 0 }
    else if cfg.dry_run then
      { state := st1
        result := { success := true, order_ids := [], cost := opp.total_cost
                    error := none }
        orders := []
        ledger_writes := 1 }
    else execute_live opp st1 venue

/-! ## Trade-ledger enrichment (executor.py update_outcomes_for_condition) -/

/-- A trade-ledger row (the JSON objects `_save_trade` appends), with the
columns `update_outcomes_for_condition` reads and writes. -/
structure LedgerEntry where
  condition_id : String
  yes_ask : ℚ
  no_ask : ℚ
  amount_per_side : ℚ
  total_cost : ℚ
  outcome : Option String
  payout : Option ℚ
  net_return : Option ℚ
  return_pct : Option ℚ
  final_crypto_price : Option ℚ
deriving Repr, DecidableEq

/-- Python `round(x, d)` on rationals: nearest multiple of 10^(-d).  (The
source rounds binary floats with ties to even; no property proved here
depends on tie behaviour.) -/
def roundQ (d : ℕ) (x : ℚ) : ℚ := (round (x * 10 ^ d) : ℤ) / 10 ^ d

/-- Enrichment of a single ledger row (executor.py lines 155-182): rows of
other markets and already-resolved rows are untouched; a null-outcome row
is filled when the winning side's recorded ask is positive; the Bool
reports whether the row was filled (the source's `changed` flag). -/
def updateEntry (cid outcome : String) (final_price : Option ℚ)
    (e : LedgerEntry) : LedgerEntry × Bool :=
  if e.condition_id ≠ cid then (e, false)
  else if e.outcome ≠ none then (e, false)
  else
    let payoutOpt : Option ℚ :=
      if outcome = "YES" ∧ 0 < e.yes_ask then some (e.amount_per_side / e.yes_ask)
      else if outcome = "NO" ∧ 0 < e.no_ask then some (e.amount_per_side / e.no_ask)
      else none
    match payoutOpt with
    | none => (e, false)
    | some payout =>
        let net_return := payout - e.total_cost
        let return_pct := if 0 < e.total_cost then net_return / e.total_cost * 100 else 0
        ({ e with outcome := some outcome
                  payout := some (roundQ 4 payout)
                  net_return := some (roundQ 4 net_return)
                  return_pct := some (roundQ 2 return_pct)
                  final_crypto_price :=
                    match final_price with
                    | some fp => some fp
                    | none => e.final_crypto_price }, true)

/-- `update_outcomes_for_condition` (executor.py lines 140-191) acting on
the decoded trades list: every row passes through `updateEntry`; the Bool
is the `changed` flag deciding whether the file is rewritten. -/
def update_outcomes_for_condition (cid outcome : String) (final_price : Option ℚ)
    (entries : List LedgerEntry) : List LedgerEntry × Bool :=
  (entries.map (fun e => (updateEntry cid outcome final_price e).1),
   entries.any (fun e => (updateEntry cid outcome final_price e).2))

/-! ## Coordinator strike capture (coordinator.py) -/

/-- `BinancePriceFeed.get_price` on the per-asset history: the price of
the most recent sample (the feed keeps `_prices[asset]` equal to the last
appended point). -/
def latestPrice (hist : List (ℚ × ℚ)) : Option ℚ := hist.getLast?.map Prod.snd

/-- Strike capture for one tracked market (coordinator.py lines 168-179):
only a market with no strike whose window-open time has passed is
assigned the feed's current spot price — when the feed has one. -/
def captureStrike (now : ℚ) (feed_price : Option ℚ) (m : CryptoMarket) : CryptoMarket :=
  if m.strike_price ≠ none then m
  else
    match m.start_date with
    | some sd =>
        if sd ≤ now then
          match feed_price with
          | some p => { m with strike_price := some p }
          | none => m
        else m
    | none => m

/-- Modelled from the spec: "Strike capture: for any tracked market whose
window-open time has passed and has no strike yet, capture PriceFeed's
spot price once, permanently" together with "strike assignment happens
once, from the window-open instant's spot price" — the feed's spot price
AT the window-open instant, i.e. the most recent sample not after that
instant.  The source performs no such historical lookup; this definition
exists only to compare the captured strike against the spec's words. -/
def spotPriceAt (hist : List (ℚ × ℚ)) (t : ℚ) : Option ℚ :=
  latestPrice (hist.filter (fun p => p.1 ≤ t))

/-! ## Concrete executor / coordinator instances -/

def execCfgEx : ExecConfig := { dry_run := false, tmc_max_daily_loss := 20 }

def oppExecEx : ExecOpportunity :=
  { condition_id := "mktE", token_yes := "yE", token_no := "nE"
    yes_ask := 55/100, no_ask := 1/2, amount_per_side := 1, total_cost := 2 }

/-- An executor killed on day 7000 after reaching the ceiling. -/
def stKilledEx : ExecState := { daily_loss := 20, daily_reset := 7000, killed := true }

/-- An armed executor with no losses on day 7000. -/
def stArmedEx : ExecState := { daily_loss := 0, daily_reset := 7000, killed := false }

/-- A price history: 100 at the window-open instant t = 0, then 101 at
t = 5, when the discovery tick runs. -/
def hist8 : List (ℚ × ℚ) := [(0, 100), (5, 101)]

def mEx8 : CryptoMarket :=
  { condition_id := "mkt8", token_yes := "y8", token_no := "n8"
    end_date := 900, asset := "BTC", start_date := some 0 }

end Polyagent

namespace Polyagent

/-! ## Helper lemmas (shared) -/

/-- A market already in the fired set is passed over before any evaluation. -/
theorem evalMarket_of_mem (cfg : SigConfig) (fired : List String)
    (profile : TightnessProfile) (env : SignalEnv)
    (h : profile.market.condition_id ∈ fired) :
    evalMarket cfg fired profile env = .passedOver := by
  unfold evalMarket
  simp [h]

/-- A fired opportunity carries the evaluated profile's market (asks gate). -/
theorem evalAsksGate_fired_market {cfg : SigConfig} {profile : TightnessProfile}
    {strike current_price distance expected_move : ℚ} {ya na : Option ℚ}
    {opp : TightMarketOpportunity}
    (h : evalAsksGate cfg profile strike current_price distance expected_move ya na
          = .fired opp) :
    opp.market = profile.market := by
  unfold evalAsksGate at h
  split at h <;> try exact EvalOutcome.noConfusion h
  split at h <;> try exact EvalOutcome.noConfusion h
  split at h <;> try exact EvalOutcome.noConfusion h
  all_goals (split at h <;> try exact EvalOutcome.noConfusion h)
  all_goals (injection h with h2; rw [← h2])

/-- A fired opportunity carries the evaluated profile's market (gate chain). -/
theorem evalSignalGates_fired_market {cfg : SigConfig} {profile : TightnessProfile}
    {env : SignalEnv} {strike current_price distance raw_em expected_move : ℚ}
    {opp : TightMarketOpportunity}
    (h : evalSignalGates cfg profile env strike current_price distance raw_em expected_move
          = .fired opp) :
    opp.market = profile.market := by
  unfold evalSignalGates at h
  split at h <;> try exact EvalOutcome.noConfusion h
  split at h <;> try exact EvalOutcome.noConfusion h
  split at h <;> try exact EvalOutcome.noConfusion h
  split at h <;> try exact EvalOutcome.noConfusion h
  exact evalAsksGate_fired_market h

/-- A fired opportunity carries the evaluated profile's market. -/
theorem evalMarket_fired_market {cfg : SigConfig} {fired : List String}
    {profile : TightnessProfile} {env : SignalEnv} {opp : TightMarketOpportunity}
    (h : evalMarket cfg fired profile env = .fired opp) :
    opp.market = profile.market := by
  unfold evalMarket at h
  split at h <;> try exact EvalOutcome.noConfusion h
  split at h <;> try exact EvalOutcome.noConfusion h
  split at h <;> try exact EvalOutcome.noConfusion h
  split at h <;> try exact EvalOutcome.noConfusion h
  split at h <;> try exact EvalOutcome.noConfusion h
  dsimp only at h
  split at h <;> try exact EvalOutcome.noConfusion h
  all_goals try (split at h <;> try exact EvalOutcome.noConfusion h)
  all_goals try (split at h <;> try exact EvalOutcome.noConfusion h)
  all_goals exact evalSignalGates_fired_market h

/-- The fired set only grows along one loop iteration. -/
theorem checkSignalsStep_fired_mono (cfg : SigConfig)
    (acc : SigState × List TightMarketOpportunity)
    (input : TightnessProfile × SignalEnv) (c : String)
    (h : c ∈ acc.1.fired) : c ∈ (checkSignalsStep cfg acc input).1.fired := by
  unfold checkSignalsStep
  split <;> simp [h]

/-- One loop iteration adds no opportunity for an id already fired. -/
theorem checkSignalsStep_no_new_opp (cfg : SigConfig)
    (acc : SigState × List TightMarketOpportunity)
    (input : TightnessProfile × SignalEnv) (c : String)
    (hc : c ∈ acc.1.fired)
    (hops : ∀ opp ∈ acc.2, opp.market.condition_id ≠ c) :
    ∀ opp ∈ (checkSignalsStep cfg acc input).2, opp.market.condition_id ≠ c := by
  intro opp hop
  unfold checkSignalsStep at hop
  cases h : evalMarket cfg acc.1.fired input.1 input.2 with
  | fired opp0 =>
      rw [h] at hop
      simp only [List.mem_append, List.mem_singleton] at hop
      rcases hop with hmem | rfl
      · exact hops _ hmem
      · rw [evalMarket_fired_market h]
        intro heq
        have hpass := evalMarket_of_mem cfg acc.1.fired input.1 input.2 (heq ▸ hc)
        rw [hpass] at h
        exact EvalOutcome.noConfusion h
  | skipped e =>
      rw [h] at hop
      exact hops _ hop
  | passedOver =>
      rw [h] at hop
      exact hops _ hop

/-- A fired opportunity's side, ask, token and stake, read off the asks
gate: the cheap side of the spot-vs-strike comparison. -/
theorem evalAsksGate_fired_fields {cfg : SigConfig} {profile : TightnessProfile}
    {strike current_price distance expected_move : ℚ} {ya na : Option ℚ}
    {opp : TightMarketOpportunity}
    (h : evalAsksGate cfg profile strike current_price distance expected_move ya na
          = .fired opp) :
    ∃ y n, ya = some y ∧ na = some n ∧
      opp.buy_side = (if strike < current_price then "NO" else "YES") ∧
      opp.buy_ask = (if strike < current_price then n else y) ∧
      opp.buy_token_id = (if strike < current_price then profile.market.token_no
                          else profile.market.token_yes) ∧
      opp.amount = cfg.max_investment ∧
      opp.total_cost = cfg.max_investment := by
  unfold evalAsksGate at h
  split at h <;> try exact EvalOutcome.noConfusion h
  rename_i y n
  split at h
  · exact EvalOutcome.noConfusion h
  split at h
  · rename_i hlt
    split at h
    · exact EvalOutcome.noConfusion h
    injection h with h2
    refine ⟨y, n, rfl, rfl, ?_, ?_, ?_, ?_, ?_⟩ <;> rw [← h2] <;> simp [hlt]
  · rename_i hlt
    split at h
    · exact absurd h (by simp)
    injection h with h2
    refine ⟨y, n, rfl, rfl, ?_, ?_, ?_, ?_, ?_⟩ <;> rw [← h2] <;> simp [hlt]

/-- A fired opportunity's side, ask, token and stake, read through the gate
chain (the asks come from the environment's CLOB lookups). -/
theorem evalSignalGates_fired_fields {cfg : SigConfig} {profile : TightnessProfile}
    {env : SignalEnv} {strike current_price distance raw_em expected_move : ℚ}
    {opp : TightMarketOpportunity}
    (h : evalSignalGates cfg profile env strike current_price distance raw_em expected_move
          = .fired opp) :
    ∃ y n, env.yes_ask = some y ∧ env.no_ask = some n ∧
      opp.buy_side = (if strike < current_price then "NO" else "YES") ∧
      opp.buy_ask = (if strike < current_price then n else y) ∧
      opp.buy_token_id = (if strike < current_price then profile.market.token_no
                          else profile.market.token_yes) ∧
      opp.amount = cfg.max_investment ∧
      opp.total_cost = cfg.max_investment := by
  unfold evalSignalGates at h
  split at h <;> try exact EvalOutcome.noConfusion h
  split at h <;> try exact EvalOutcome.noConfusion h
  split at h <;> try exact EvalOutcome.noConfusion h
  split at h <;> try exact EvalOutcome.noConfusion h
  exact evalAsksGate_fired_fields h

/-- Suppression over a whole fold: starting from a state whose fired set
holds `c` and an accumulator free of `c`, no opportunity for `c` is ever
added. -/
theorem checkSignals_foldl_suppressed (cfg : SigConfig)
    (inputs : List (TightnessProfile × SignalEnv)) :
    ∀ acc : SigState × List TightMarketOpportunity, ∀ c : String,
      c ∈ acc.1.fired → (∀ opp ∈ acc.2, opp.market.condition_id ≠ c) →
      ∀ opp ∈ (inputs.foldl (checkSignalsStep cfg) acc).2,
        opp.market.condition_id ≠ c := by
  induction inputs with
  | nil => intro acc c hc hops; simpa using hops
  | cons head tail ih =>
      intro acc c hc hops
      simp only [List.foldl_cons]
      exact ih _ c (checkSignalsStep_fired_mono cfg acc head c hc)
        (checkSignalsStep_no_new_opp cfg acc head c hc hops)

end Polyagent

namespace Polyagent

/-- C10: For every tracked market whose snapshot log is empty, get_profile
does not fail: it returns a TightnessProfile with tight_ratio = 0,
avg_spread = 1, current_yes = 1/2, current_no = 1/2, an empty snapshot
list, and seconds_remaining = max 0 (expiry − now). -/
theorem c10_get_profile_empty (market : CryptoMarket) (threshold now : ℚ) :
    get_profile market threshold [] now =
      { market := market
        snapshots := []
        tight_ratio := 0
        avg_spread := 1
        current_yes := 1/2
        current_no := 1/2
        seconds_remaining := max 0 (market.end_date - now) } := rfl

/-- C7: get_volatility returns the standard deviation (abstract square root
`sq` of the population variance) of the consecutive log-returns among the
samples within the trailing window, and returns `none` — never a number,
in particular never 0 — exactly when fewer than 10 samples lie in the
window or fewer than 5 returns were computed.  (An empty history gives an
empty sample list, so the source's separate `if not hist` guard is
absorbed by the fewer-than-10 condition.) -/
theorem c7_get_volatility_spec (lg sq : ℚ → ℚ) (now window : ℚ)
    (hist : List (ℚ × ℚ)) :
    get_volatility lg sq now window hist =
      if (volatilityPoints now window hist).length < 10 ∨
         (logReturns lg (volatilityPoints now window hist)).length < 5
      then none
      else some (sq (listVariance (logReturns lg (volatilityPoints now window hist)))) := by
  unfold get_volatility
  by_cases h : hist = []
  · subst h
    simp [volatilityPoints]
  · simp only [h, if_false]
    by_cases h10 : (volatilityPoints now window hist).length < 10
    · simp [h10]
    · by_cases h5 : (logReturns lg (volatilityPoints now window hist)).length < 5
      · simp [h10, h5]
      · simp [h10, h5]

/-- C1: For every market id, at most one Opportunity ever fires within one
tracked lifetime: an id in the fired set is skipped before evaluation
(outcome passedOver, so no skip entry and no opportunity); when a market
fires, its id is inserted into the fired set; and a whole tick run started
with the id already fired produces zero opportunities for that id (hence
zero ledger entries, the executor only being invoked on opportunities). -/
theorem c1_fired_set_idempotence :
    (∀ (cfg : SigConfig) (fired : List String) (profile : TightnessProfile)
        (env : SignalEnv), profile.market.condition_id ∈ fired →
        evalMarket cfg fired profile env = .passedOver) ∧
    (∀ (cfg : SigConfig) (acc : SigState × List TightMarketOpportunity)
        (input : TightnessProfile × SignalEnv) (opp : TightMarketOpportunity),
        evalMarket cfg acc.1.fired input.1 input.2 = .fired opp →
        (checkSignalsStep cfg acc input).1.fired =
          input.1.market.condition_id :: acc.1.fired) ∧
    (∀ (cfg : SigConfig) (st : SigState)
        (inputs : List (TightnessProfile × SignalEnv)) (c : String),
        c ∈ st.fired →
        ∀ opp ∈ (checkSignals cfg st inputs).2, opp.market.condition_id ≠ c) := by
  refine ⟨evalMarket_of_mem, ?_, ?_⟩
  · intro cfg acc input opp h
    unfold checkSignalsStep
    rw [h]
  · intro cfg st inputs c hc
    exact checkSignals_foldl_suppressed cfg inputs (st, []) c hc (by simp)

/-- C3 (counterexample): a tracked market with no strike price yet is
evaluated, fires nothing, and records no SkipRecord — the engine state and
the opportunity list are unchanged after the tick, refuting "exactly one
of {fired, skipped} — never neither". -/
theorem c3_counterexample_neither :
    checkSignals sigCfgEx { fired := [], skips := [] } [(pEx3, envNone)] =
      ({ fired := [], skips := [] }, []) := by rfl

/-- C3 (amended): each evaluation of a tracked market produces at most one
of the two outcomes — a fire appends exactly one Opportunity and leaves
the skip log unchanged, a skip appends exactly one SkipRecord and adds no
Opportunity — never both; but an evaluation may also produce neither (the
silent early `continue`s: already fired, no strike, outside the entry
window, below the seconds floor, missing feed data, low volatility without
a passing signal). -/
theorem c3_tick_outcome (cfg : SigConfig) (st : SigState)
    (opps : List TightMarketOpportunity) (profile : TightnessProfile)
    (env : SignalEnv) :
    (∃ opp, checkSignalsStep cfg (st, opps) (profile, env) =
        ({ st with fired := profile.market.condition_id :: st.fired },
         opps ++ [opp])) ∨
    (∃ e, checkSignalsStep cfg (st, opps) (profile, env) =
        ({ st with skips := st.skips ++ [(profile.market.condition_id, e)] },
         opps)) ∨
    checkSignalsStep cfg (st, opps) (profile, env) = (st, opps) := by
  unfold checkSignalsStep
  cases h : evalMarket cfg st.fired profile env <;> simp

/-- C4 (counterexample): the claim's side-selection rule fails on the code.
At the concrete instance (spot 101 above strike 100, σ = 10⁻⁶, T = 4 s,
both asks 1/2) the engine fires and buys NO — the cheap side — while the
Black-Scholes model of binary_option_backtest.py gives
model_prob = calc_prob_above = 1 > 1/2 (d2 = 5000 saturates the CDF), so
the model's favorite is YES and the YES edge (model_prob − yes_ask = 1/2)
strictly exceeds the NO edge ((1 − model_prob) − no_ask = −1/2).  The
engine never evaluates the model: it picks the side opposite the spot's
position relative to the strike. -/
theorem c4_counterexample_side :
    evalMarket sigCfgEx4 [] pEx4 envEx4 = .fired oppEx4 ∧
    oppEx4.buy_side = "NO" ∧
    calc_prob_above lgEx4 sqEx4 exEx4 101 100 (1/1000000) 4 = 1 ∧
    (1/2 : ℚ) < calc_prob_above lgEx4 sqEx4 exEx4 101 100 (1/1000000) 4 ∧
    (1 - calc_prob_above lgEx4 sqEx4 exEx4 101 100 (1/1000000) 4) - oppEx4.no_ask <
      calc_prob_above lgEx4 sqEx4 exEx4 101 100 (1/1000000) 4 - oppEx4.yes_ask := by
  refine ⟨?_, rfl, ?_, ?_, ?_⟩
  · norm_num [evalMarket, evalSignalGates, evalAsksGate, signal_passes, has_odds_bypass,
      sigCfgEx4, sigCfgEx, oppEx4, pEx4, mEx4, envEx4, absQ]
  · norm_num [calc_prob_above, norm_cdf, lgEx4, sqEx4, exEx4]
  · norm_num [calc_prob_above, norm_cdf, lgEx4, sqEx4, exEx4]
  · norm_num [calc_prob_above, norm_cdf, lgEx4, sqEx4, exEx4, oppEx4]

/-- C4 (amended): when an Opportunity fires, its chosen side is the cheap
side determined solely by the spot price against the strike — NO when the
spot is above the strike, YES otherwise — with the chosen side's ask and
token, and the configured stake; no model probability or edge enters the
selection. -/
theorem c4_cheap_side (cfg : SigConfig) (fired : List String)
    (profile : TightnessProfile) (env : SignalEnv) (opp : TightMarketOpportunity)
    (h : evalMarket cfg fired profile env = .fired opp) :
    ∃ strike cp ya na, profile.market.strike_price = some strike ∧
      env.price = some cp ∧ env.yes_ask = some ya ∧ env.no_ask = some na ∧
      opp.buy_side = (if strike < cp then "NO" else "YES") ∧
      opp.buy_ask = (if strike < cp then na else ya) ∧
      opp.buy_token_id = (if strike < cp then profile.market.token_no
                          else profile.market.token_yes) ∧
      opp.amount = cfg.max_investment ∧
      opp.total_cost = cfg.max_investment := by
  unfold evalMarket at h
  split at h <;> try exact EvalOutcome.noConfusion h
  split at h <;> try exact EvalOutcome.noConfusion h
  split at h <;> try exact EvalOutcome.noConfusion h
  split at h <;> try exact EvalOutcome.noConfusion h
  split at h <;> try exact EvalOutcome.noConfusion h
  dsimp only at h
  split at h <;> try exact EvalOutcome.noConfusion h
  all_goals try (split at h <;> try exact EvalOutcome.noConfusion h)
  all_goals try (split at h <;> try exact EvalOutcome.noConfusion h)
  all_goals
    obtain ⟨y, n, hy, hn, hrest⟩ := evalSignalGates_fired_fields h
  all_goals exact ⟨_, _, y, n, by assumption, by assumption, hy, hn, hrest⟩

/-- C4 witness: the amended side-selection rule at the concrete firing
instance (spot 101 above strike 100 buys NO at the NO ask with the NO
token and the configured stake). -/
theorem c4_cheap_side_witness :
    ∃ strike cp ya na, pEx4.market.strike_price = some strike ∧
      envEx4.price = some cp ∧ envEx4.yes_ask = some ya ∧ envEx4.no_ask = some na ∧
      oppEx4.buy_side = (if strike < cp then "NO" else "YES") ∧
      oppEx4.buy_ask = (if strike < cp then na else ya) ∧
      oppEx4.buy_token_id = (if strike < cp then pEx4.market.token_no
                          else pEx4.market.token_yes) ∧
      oppEx4.amount = sigCfgEx4.max_investment ∧
      oppEx4.total_cost = sigCfgEx4.max_investment :=
  c4_cheap_side sigCfgEx4 [] pEx4 envEx4 oppEx4 (by
    norm_num [evalMarket, evalSignalGates, evalAsksGate, signal_passes, has_odds_bypass,
      sigCfgEx4, sigCfgEx, oppEx4, pEx4, mEx4, envEx4, absQ])

/-- C2 (code_bug): the sticky-kill check precedes `_maybe_reset_daily`, so
the first execute() call on the day after a kill is still rejected and the
counters stay: the state is returned unchanged (killed, loss intact), no
order is attempted and no ledger entry is written — while the reset helper
itself, had it been reached, would have cleared the counters and re-armed
the executor, as the spec and the helper's own code state. -/
theorem c2_kill_sticky_across_rollover :
    (execute_inner execCfgEx stKilledEx 7001 oppExecEx (.ok "a" "b")).state = stKilledEx ∧
    (execute_inner execCfgEx stKilledEx 7001 oppExecEx (.ok "a" "b")).result.success = false ∧
    (execute_inner execCfgEx stKilledEx 7001 oppExecEx (.ok "a" "b")).orders = [] ∧
    (execute_inner execCfgEx stKilledEx 7001 oppExecEx (.ok "a" "b")).ledger_writes = 0 ∧
    maybe_reset_daily stKilledEx 7001 =
      { daily_loss := 0, daily_reset := 7001, killed := false } := by
  refine ⟨rfl, rfl, rfl, rfl, ?_⟩
  norm_num [maybe_reset_daily, stKilledEx]

/-- C9: every live call that reaches order placement grows the daily-loss
counter — by the full total_cost on success and by half of it on a
placement exception — and within one UTC day (no rollover) no execute()
call ever decreases the counter, so the ceiling bounds cumulative daily
spend. -/
theorem c9_daily_loss_monotone (cfg : ExecConfig) (st : ExecState) (today : ℕ)
    (opp : ExecOpportunity) (venue : OrderPlacement)
    (hday : today = st.daily_reset) (hcost : 0 ≤ opp.total_cost) :
    st.daily_loss ≤ (execute_inner cfg st today opp venue).state.daily_loss ∧
    (∀ yid nid, (execute_live opp st (.ok yid nid)).state.daily_loss
        = st.daily_loss + opp.total_cost) ∧
    (∀ msg, (execute_live opp st (.failAtYes msg)).state.daily_loss
        = st.daily_loss + opp.total_cost * (1/2)) ∧
    (∀ yid msg, (execute_live opp st (.failAfterYes yid msg)).state.daily_loss
        = st.daily_loss + opp.total_cost * (1/2)) := by
  refine ⟨?_, fun yid nid => rfl, fun msg => rfl, fun yid msg => rfl⟩
  unfold execute_inner
  split
  · exact le_refl _
  · have hrst : maybe_reset_daily st today = st := by
      unfold maybe_reset_daily
      simp [hday]
    dsimp only
    rw [hrst]
    split
    · exact le_refl _
    · split
      · exact le_refl _
      · cases venue <;> dsimp [execute_live] <;> linarith

/-- C9 witness: the monotonicity theorem at an armed executor on its own
day with a positive-cost opportunity and a successful placement. -/
theorem c9_daily_loss_monotone_witness :
    stArmedEx.daily_loss ≤
      (execute_inner execCfgEx stArmedEx 7000 oppExecEx (.ok "a" "b")).state.daily_loss ∧
    (∀ yid nid, (execute_live oppExecEx stArmedEx (.ok yid nid)).state.daily_loss
        = stArmedEx.daily_loss + oppExecEx.total_cost) ∧
    (∀ msg, (execute_live oppExecEx stArmedEx (.failAtYes msg)).state.daily_loss
        = stArmedEx.daily_loss + oppExecEx.total_cost * (1/2)) ∧
    (∀ yid msg, (execute_live oppExecEx stArmedEx (.failAfterYes yid msg)).state.daily_loss
        = stArmedEx.daily_loss + oppExecEx.total_cost * (1/2)) :=
  c9_daily_loss_monotone execCfgEx stArmedEx 7000 oppExecEx (.ok "a" "b") rfl
    (by norm_num [oppExecEx])

/-- C5 (counterexample): a successful live execution posts TWO market
orders — one per side, YES then NO, each for amount_per_side — not a
single order for the chosen side; the executor never reads a chosen side
at all. -/
theorem c5_counterexample_two_orders :
    (execute_inner execCfgEx stArmedEx 7000 oppExecEx (.ok "a" "b")).orders =
      [{ token_id := "yE", amount := 1 }, { token_id := "nE", amount := 1 }] ∧
    (execute_inner execCfgEx stArmedEx 7000 oppExecEx (.ok "a" "b")).orders.length = 2 ∧
    (2 : ℕ) ≠ 1 := by
  refine ⟨?_, ?_, by norm_num⟩ <;>
    norm_num [execute_inner, maybe_reset_daily, execute_live, execCfgEx, stArmedEx, oppExecEx]

/-- C5 (amended): every live execution (not killed, under the ceiling, not
dry-run) posts up to two market orders — the YES leg then the NO leg, each
for amount_per_side — in one single attempt (at most the two legs, one
ledger write, no retry); on a placement failure the result carries the
error, success is false, and half of total_cost is charged to the
daily-loss counter. -/
theorem c5_live_order_semantics (cfg : ExecConfig) (st : ExecState) (today : ℕ)
    (opp : ExecOpportunity) (venue : OrderPlacement)
    (hk : st.killed = false) (hd : cfg.dry_run = false)
    (hl : (maybe_reset_daily st today).daily_loss < cfg.tmc_max_daily_loss) :
    execute_inner cfg st today opp venue
      = execute_live opp (maybe_reset_daily st today) venue ∧
    (∀ yid nid, venue = .ok yid nid →
        (execute_inner cfg st today opp venue).orders =
          [{ token_id := opp.token_yes, amount := opp.amount_per_side },
           { token_id := opp.token_no, amount := opp.amount_per_side }]) ∧
    ((execute_inner cfg st today opp venue).result.success = false →
        (execute_inner cfg st today opp venue).state.daily_loss =
          (maybe_reset_daily st today).daily_loss + opp.total_cost * (1/2) ∧
        (execute_inner cfg st today opp venue).result.error ≠ none) ∧
    (execute_inner cfg st today opp venue).orders.length ≤ 2 ∧
    (execute_inner cfg st today opp venue).ledger_writes = 1 := by
  have hmain : execute_inner cfg st today opp venue
      = execute_live opp (maybe_reset_daily st today) venue := by
    unfold execute_inner
    rw [if_neg (by simp [hk]), if_neg (not_le.mpr hl), if_neg (by simp [hd])]
  refine ⟨hmain, ?_, ?_, ?_, ?_⟩
  · intro yid nid hv
    rw [hmain, hv]
    rfl
  · intro hs
    rw [hmain] at hs ⊢
    cases venue <;> simp_all [execute_live]
  · rw [hmain]
    cases venue <;> simp [execute_live]
  · rw [hmain]
    cases venue <;> simp [execute_live]

/-- C5 witness: the amended live-execution semantics at an armed executor
whose NO leg fails after the YES leg was posted. -/
theorem c5_live_order_semantics_witness :
    execute_inner execCfgEx stArmedEx 7000 oppExecEx (.failAfterYes "a" "err")
      = execute_live oppExecEx (maybe_reset_daily stArmedEx 7000) (.failAfterYes "a" "err") ∧
    (∀ yid nid, (.failAfterYes "a" "err" : OrderPlacement) = .ok yid nid →
        (execute_inner execCfgEx stArmedEx 7000 oppExecEx (.failAfterYes "a" "err")).orders =
          [{ token_id := oppExecEx.token_yes, amount := oppExecEx.amount_per_side },
           { token_id := oppExecEx.token_no, amount := oppExecEx.amount_per_side }]) ∧
    ((execute_inner execCfgEx stArmedEx 7000 oppExecEx (.failAfterYes "a" "err")).result.success = false →
        (execute_inner execCfgEx stArmedEx 7000 oppExecEx (.failAfterYes "a" "err")).state.daily_loss =
          (maybe_reset_daily stArmedEx 7000).daily_loss + oppExecEx.total_cost * (1/2) ∧
        (execute_inner execCfgEx stArmedEx 7000 oppExecEx (.failAfterYes "a" "err")).result.error ≠ none) ∧
    (execute_inner execCfgEx stArmedEx 7000 oppExecEx (.failAfterYes "a" "err")).orders.length ≤ 2 ∧
    (execute_inner execCfgEx stArmedEx 7000 oppExecEx (.failAfterYes "a" "err")).ledger_writes = 1 :=
  c5_live_order_semantics execCfgEx stArmedEx 7000 oppExecEx (.failAfterYes "a" "err")
    rfl rfl (by norm_num [maybe_reset_daily, stArmedEx, execCfgEx])

/-- Enriching a row twice with the same resolution is the identity on the
row, and the second pass reports no change. -/
theorem updateEntry_idem (cid outcome : String) (fp : Option ℚ) (e : LedgerEntry) :
    updateEntry cid outcome fp (updateEntry cid outcome fp e).1 =
      ((updateEntry cid outcome fp e).1, false) := by
  by_cases h1 : e.condition_id ≠ cid
  · simp [updateEntry, h1]
  · by_cases h2 : e.outcome ≠ none
    · simp [updateEntry, h1, h2]
    · push_neg at h1 h2
      by_cases h3 : outcome = "YES" ∧ 0 < e.yes_ask
      · simp [updateEntry, h1, h2, h3]
      · by_cases h4 : outcome = "NO" ∧ 0 < e.no_ask
        · simp [updateEntry, h1, h2, h3, h4]
        · simp [updateEntry, h1, h2, h3, h4]

/-- C6: `update_outcomes_for_condition` enriches each unresolved ledger row
for the market exactly once: a row whose outcome is already set is
returned untouched and unflagged; a null-outcome row of this market with a
positive recorded ask for the winning side gets its outcome, payout and
net-return fields filled (and is flagged as changed); and a second call
for the same market is a no-op — it returns the same rows and a false
changed flag, so the file is not rewritten. -/
theorem c6_resolution_idempotent (cid outcome : String) (fp : Option ℚ)
    (entries : List LedgerEntry) :
    (∀ e : LedgerEntry, e.outcome ≠ none → updateEntry cid outcome fp e = (e, false)) ∧
    (∀ e : LedgerEntry, e.condition_id = cid → e.outcome = none →
        (outcome = "YES" ∧ 0 < e.yes_ask ∨ outcome = "NO" ∧ 0 < e.no_ask) →
        (updateEntry cid outcome fp e).1.outcome = some outcome ∧
        (updateEntry cid outcome fp e).1.payout ≠ none ∧
        (updateEntry cid outcome fp e).1.net_return ≠ none ∧
        (updateEntry cid outcome fp e).2 = true) ∧
    update_outcomes_for_condition cid outcome fp
        (update_outcomes_for_condition cid outcome fp entries).1 =
      ((update_outcomes_for_condition cid outcome fp entries).1, false) := by
  refine ⟨?_, ?_, ?_⟩
  · intro e he
    simp [updateEntry, he]
  · intro e hcid hout hwin
    rcases hwin with ⟨hy, hpos⟩ | ⟨hn, hpos⟩
    · constructor
      · simp [updateEntry, hcid, hout, hy, hpos]
      · refine ⟨?_, ?_, ?_⟩ <;> simp [updateEntry, hcid, hout, hy, hpos]
    · by_cases h3 : outcome = "YES" ∧ 0 < e.yes_ask
      · constructor
        · simp [updateEntry, hcid, hout, h3]
        · refine ⟨?_, ?_, ?_⟩ <;> simp [updateEntry, hcid, hout, h3]
      · constructor
        · simp [updateEntry, hcid, hout, h3, hn, hpos]
        · refine ⟨?_, ?_, ?_⟩ <;> simp [updateEntry, hcid, hout, h3, hn, hpos]
  · unfold update_outcomes_for_condition
    simp only [List.map_map, List.any_map, Function.comp]
    rw [Prod.mk.injEq]
    refine ⟨?_, ?_⟩
    · exact List.map_congr_left (fun e _ => by
        simp only [Function.comp_apply]
        rw [updateEntry_idem])
    · rw [List.any_eq_false]
      intro e he
      simp only [Function.comp_apply]
      rw [updateEntry_idem]
      simp

/-- Once a strike is present, capture is the identity. -/
theorem captureStrike_of_some {now : ℚ} {fp : Option ℚ} {m : CryptoMarket}
    {s : ℚ} (h : m.strike_price = some s) : captureStrike now fp m = m := by
  unfold captureStrike
  simp [h]

/-- C8 (counterexample): the window opens at t = 0 with spot 100; the
discovery tick at t = 5 captures the strike from the feed's CURRENT price
101, not the window-open instant's spot price 100 as the claim states. -/
theorem c8_counterexample_capture_price :
    (captureStrike 5 (latestPrice hist8) mEx8).strike_price = some 101 ∧
    spotPriceAt hist8 0 = some 100 ∧
    ((101 : ℚ)) ≠ 100 := by
  refine ⟨?_, ?_, by norm_num⟩
  · norm_num [captureStrike, latestPrice, hist8, mEx8]
  · norm_num [spotPriceAt, latestPrice, hist8]

/-- C8 (amended): for every tracked market the strike is assigned at most
once and is immutable afterwards — a market with a strike, without a
window-open time, or whose window has not opened is untouched; a
strike-less market whose window-open time has passed gets the feed's spot
price at the capture tick (not the window-open instant); and once set no
later tick changes the market. -/
theorem c8_capture_once (now : ℚ) (fp : Option ℚ) (m : CryptoMarket) :
    (∀ s, m.strike_price = some s → captureStrike now fp m = m) ∧
    (m.start_date = none → captureStrike now fp m = m) ∧
    (∀ sd, m.start_date = some sd → now < sd → captureStrike now fp m = m) ∧
    (∀ sd p, m.strike_price = none → m.start_date = some sd → sd ≤ now →
        fp = some p → (captureStrike now fp m).strike_price = some p) ∧
    (∀ now2 fp2 s, (captureStrike now fp m).strike_price = some s →
        captureStrike now2 fp2 (captureStrike now fp m) = captureStrike now fp m) := by
  refine ⟨?_, ?_, ?_, ?_, ?_⟩
  · intro s h
    exact captureStrike_of_some h
  · intro h
    unfold captureStrike
    split
    · rfl
    · rw [h]
  · intro sd hsd hlt
    unfold captureStrike
    split
    · rfl
    · rw [hsd]
      simp [not_le.mpr hlt]
  · intro sd p hstrike hsd hle hfp
    unfold captureStrike
    rw [hsd, hfp]
    simp [hstrike, hle]
  · intro now2 fp2 s h
    exact captureStrike_of_some h

/-- C8 witness: the capture rules at the concrete instance — the
strike-less market whose window opened at t = 0 receives the feed's price
at the t = 5 tick. -/
theorem c8_capture_once_witness :
    (∀ s, mEx8.strike_price = some s → captureStrike 5 (latestPrice hist8) mEx8 = mEx8) ∧
    (mEx8.start_date = none → captureStrike 5 (latestPrice hist8) mEx8 = mEx8) ∧
    (∀ sd, mEx8.start_date = some sd → (5:ℚ) < sd → captureStrike 5 (latestPrice hist8) mEx8 = mEx8) ∧
    (∀ sd p, mEx8.strike_price = none → mEx8.start_date = some sd → sd ≤ 5 →
        latestPrice hist8 = some p → (captureStrike 5 (latestPrice hist8) mEx8).strike_price = some p) ∧
    (∀ now2 fp2 s, (captureStrike 5 (latestPrice hist8) mEx8).strike_price = some s →
        captureStrike now2 fp2 (captureStrike 5 (latestPrice hist8) mEx8) =
          captureStrike 5 (latestPrice hist8) mEx8) :=
  c8_capture_once 5 (latestPrice hist8) mEx8

end Polyagent
